import Mathlib

/- Verification of the River-Health-Prediction synthetic data generator
   (synthetic_data.py) and the risk bucketing of the prediction app
   (app.py).  Python floats are modelled as exact rationals; the global
   random sources (the random module, NumPy's global generator, Faker)
   are modelled as explicit streams of raw draws consumed in program
   order. -/

attribute [local semireducible] Rat.add Rat.mul Rat.sub Rat.inv Rat.ofScientific

/-- np.clip x lo hi. -/
def clip (x lo hi : ℚ) : ℚ := min (max x lo) hi

/-- Python round(x, 2) on exact rationals. -/
def round2 (x : ℚ) : ℚ := mkRat (round (x * 100)) 100

/-- np.random.normal(0, sigma) given the raw standard-normal draw z. -/
def normal (sigma z : ℚ) : ℚ := sigma * z

/-- np.random.uniform(a, b) given the raw uniform draw u in [0,1). -/
def uniform (a b u : ℚ) : ℚ := a + (b - a) * u

/-- Missing-value injection `if random.random() < 0.07: x = np.nan`
(synthetic_data.py lines 67-72): the field keeps its value only when the
draw is not below 0.07. -/
def inject (mdraw : ℚ) (x : ℚ) : Option ℚ := if mdraw < 0.07 then none else some x

/-- The four season strings constructed in generate_dataset (lines 103-111). -/
inductive Season where
  | winter
  | spring
  | summer
  | autumn
deriving DecidableEq, Repr

/-- Seasonal temperature offset dict of line 40. -/
def seasonTempOffset : Season → ℚ
  | .winter => -5
  | .spring => 0
  | .summer => 5
  | .autumn => 0

/-- Seasonal DO bias `0.5 if season in ["winter", "spring"] else -0.5`
(line 42). -/
def doSeasonBias (s : Season) : ℚ :=
  if s = .winter ∨ s = .spring then 0.5 else -0.5

/-- One row of the base_values table (lines 9-13); dO stands for the "do" key. -/
structure Profile where
  pH : ℚ
  nitrate : ℚ
  temp : ℚ
  turbidity : ℚ
  dO : ℚ
  conductivity : ℚ
deriving DecidableEq

/-- One row of the pollution_effect table (lines 15-19): ranges as pairs. -/
structure Effect where
  pH : ℚ × ℚ
  nitrate : ℚ × ℚ
  turbidity : ℚ × ℚ
  dO : ℚ × ℚ
  conductivity : ℚ × ℚ
deriving DecidableEq

def chemicalBase : Profile := ⟨5.5, 15, 22, 10, 7, 300⟩

def textileBase : Profile := ⟨7.5, 10, 28, 20, 6.5, 500⟩

def foodBase : Profile := ⟨6.8, 5, 18, 5, 8, 150⟩

/-- The base_values dict as a partial lookup (a missing key is a KeyError,
modelled as none). -/
def base_values (industry : String) : Option Profile :=
  if industry = "chemical" then some chemicalBase
  else if industry = "textile" then some textileBase
  else if industry = "food_processing" then some foodBase
  else none

def chemicalEffect : Effect := ⟨(-2.5, 2.5), (3, 7), (2, 5), (-3, -1), (1.5, 3)⟩

def textileEffect : Effect := ⟨(-1, 1), (2, 5), (1.5, 3), (-2, -0.5), (1.2, 2.5)⟩

def foodEffect : Effect := ⟨(-0.5, 0.5), (1.5, 3), (1.2, 2), (-1, 0), (1.1, 1.8)⟩

/-- The pollution_effect dict as a partial lookup. -/
def pollution_effect (industry : String) : Option Effect :=
  if industry = "chemical" then some chemicalEffect
  else if industry = "textile" then some textileEffect
  else if industry = "food_processing" then some foodEffect
  else none

/-- calculate_wqi (synthetic_data.py lines 21-32); temp is accepted but unused. -/
def calculate_wqi (pH DO nitrate turbidity temp : ℚ) : ℚ :=
  let pH_score := max 0 (100 - |pH - 7| * 15)
  let do_score := clip ((DO - 4) * 25) 0 100
  let nitrate_score := max 0 (100 - nitrate * 5)
  let turbidity_score := max 0 (100 - turbidity * 4)
  let score := do_score * 0.40 + pH_score * 0.25 + nitrate_score * 0.20 + turbidity_score * 0.15
  round2 (clip score 0 100)

/-- Modelled from the spec: the WQI composite exactly as the specification
words it (weights written in front, same sub-scores, clamp then round). -/
def calculate_wqi_spec (pH DO nitrate turbidity : ℚ) : ℚ :=
  round2 (clip
    (0.40 * clip ((DO - 4) * 25) 0 100 + 0.25 * max 0 (100 - |pH - 7| * 15) +
      0.20 * max 0 (100 - nitrate * 5) + 0.15 * max 0 (100 - turbidity * 4)) 0 100)

/-- NaN-check and WQI computation of lines 74-77: the index is NaN exactly
when one of the five inputs is NaN, and is otherwise computed from the
clamped (not yet rounded) values. -/
def wqi_of (pHo DOo nitrateo turbidityo tempo : Option ℚ) : Option ℚ :=
  match pHo, DOo, nitrateo, turbidityo, tempo with
  | some a, some b, some c, some d, some e => some (calculate_wqi a b c d e)
  | _, _, _, _, _ => none

/-- The raw draws create_record takes from NumPy's global generator, in
program order: six standard-normal draws (lines 37-44) and five uniform
draws for the effect branch (lines 46-58). -/
structure NpDraws where
  z1 : ℚ
  z2 : ℚ
  z3 : ℚ
  z4 : ℚ
  z5 : ℚ
  z6 : ℚ
  u1 : ℚ
  u2 : ℚ
  u3 : ℚ
  u4 : ℚ
  u5 : ℚ
deriving DecidableEq, Repr

/-- The six random.random() draws of the missing-value injection
(lines 67-72), in program order: pH, nitrate, water_temp, turbidity,
DO, conductivity. -/
structure MissDraws where
  m1 : ℚ
  m2 : ℚ
  m3 : ℚ
  m4 : ℚ
  m5 : ℚ
  m6 : ℚ
deriving DecidableEq, Repr

/-- One output row (lines 79-91).  Timestamp is in hours since the Unix
epoch; a missing reading is none. -/
structure Record where
  Timestamp : ℕ
  Factory_ID : String
  Industry_Type : String
  pH : Option ℚ
  Turbidity : Option ℚ
  Dissolved_Oxygen : Option ℚ
  Water_Temperature : Option ℚ
  Conductivity : Option ℚ
  Nitrate : Option ℚ
  Water_Quality_Index : Option ℚ
  Pollution_Flag : ℕ
deriving DecidableEq, Repr

/-- Lines 60-91 of create_record: clamp the five effected values and the
water temperature, inject missing values, compute the WQI from the clamped
unrounded values, and store every reading rounded to 2 decimals.
v = (pH, nitrate, turbidity, DO, conductivity) after the effect branch. -/
def finishRecord (time : ℕ) (factory industry : String) (is_polluted : ℕ)
    (water_temp0 : ℚ) (v : ℚ × ℚ × ℚ × ℚ × ℚ) (m : MissDraws) : Record :=
  let pH := clip v.1 3 10
  let nitrate := clip v.2.1 0 100
  let turbidity := clip v.2.2.1 0 150
  let DO := clip v.2.2.2.1 0 14
  let conductivity := clip v.2.2.2.2 50 2000
  let water_temp := clip water_temp0 5 40
  let pHo := inject m.m1 pH
  let nitrateo := inject m.m2 nitrate
  let water_tempo := inject m.m3 water_temp
  let turbidityo := inject m.m4 turbidity
  let DOo := inject m.m5 DO
  let conductivityo := inject m.m6 conductivity
  { Timestamp := time
    Factory_ID := factory
    Industry_Type := industry
    pH := pHo.map round2
    Turbidity := turbidityo.map round2
    Dissolved_Oxygen := DOo.map round2
    Water_Temperature := water_tempo.map round2
    Conductivity := conductivityo.map round2
    Nitrate := nitrateo.map round2
    Water_Quality_Index := wqi_of pHo DOo nitrateo turbidityo water_tempo
    Pollution_Flag := is_polluted }

/-- create_record (synthetic_data.py lines 34-91).  A KeyError on the
base_values or pollution_effect dict is modelled as none. -/
def create_record (time : ℕ) (factory industry : String) (is_polluted : ℕ)
    (season : Season) (d : NpDraws) (m : MissDraws) : Option Record :=
  (base_values industry).bind fun vals =>
    let pH := vals.pH + normal 0.2 d.z1
    let nitrate := vals.nitrate + normal 1.5 d.z2
    let turbidity := vals.turbidity + normal 3 d.z3
    let temp_base := vals.temp + seasonTempOffset season
    let water_temp := temp_base + normal 1 d.z4
    let do_base := vals.dO + doSeasonBias season
    let DO := do_base + normal 0.5 d.z5
    let conductivity := vals.conductivity + normal 50 d.z6
    (if is_polluted ≠ 0 then
        (pollution_effect industry).map fun eff =>
          (pH + uniform eff.pH.1 eff.pH.2 d.u1,
           nitrate * uniform eff.nitrate.1 eff.nitrate.2 d.u2,
           turbidity * uniform eff.turbidity.1 eff.turbidity.2 d.u3,
           DO + uniform eff.dO.1 eff.dO.2 d.u4,
           conductivity * uniform eff.conductivity.1 eff.conductivity.2 d.u5)
      else
        some (pH + uniform (-0.1) 0.1 d.u1,
           nitrate + uniform 0.1 1 d.u2,
           turbidity + uniform 0.1 2 d.u3,
           DO + uniform (-0.1) 0.1 d.u4,
           conductivity + uniform 1 5 d.u5)).map fun v =>
      finishRecord time factory industry is_polluted water_temp v m

/-- C1: calculate_wqi computes exactly the specified weighted, clipped and
2-decimal-rounded composite; on pH=7, DO=8, nitrate=5, turbidity=10 it returns
89 for every temperature, and temperature never enters the weighted sum. -/
theorem C1_calculate_wqi_matches_spec :
    (∀ pH DO nitrate turbidity temp : ℚ,
        calculate_wqi pH DO nitrate turbidity temp =
          calculate_wqi_spec pH DO nitrate turbidity) ∧
    (∀ temp : ℚ, calculate_wqi 7 8 5 10 temp = 89) ∧
    (∀ pH DO nitrate turbidity t1 t2 : ℚ,
        calculate_wqi pH DO nitrate turbidity t1 = calculate_wqi pH DO nitrate turbidity t2) := by
  refine ⟨fun pH DO nitrate turbidity temp => ?_, fun temp => ?_,
    fun _ _ _ _ _ _ => rfl⟩
  · simp only [calculate_wqi, calculate_wqi_spec]
    refine congrArg round2 (congrArg (fun s => clip s 0 100) ?_)
    ring
  · simp only [calculate_wqi]
    decide

/-- The WQI of lines 74-77 is produced exactly when all five inputs are
present. -/
theorem wqi_of_isSome (a b c d e : Option ℚ) :
    (wqi_of a b c d e).isSome =
      (a.isSome && b.isSome && c.isSome && d.isSome && e.isSome) := by
  cases a <;> cases b <;> cases c <;> cases d <;> cases e <;> rfl

/-- C10: water temperature carries no pollution signal: with every other
argument and every raw draw fixed, flipping the pollution flag between 1 and
0 leaves the Water_Temperature field of the produced record unchanged. -/
theorem C10_water_temperature_ignores_pollution_flag :
    ∀ (time : ℕ) (factory industry : String) (season : Season)
      (d : NpDraws) (m : MissDraws),
      (create_record time factory industry 1 season d m).map
          (fun r => r.Water_Temperature) =
        (create_record time factory industry 0 season d m).map
          (fun r => r.Water_Temperature) := by
  intro time factory industry season d m
  simp only [create_record, base_values, pollution_effect]
  split_ifs <;> rfl

/-- C3: for every record create_record returns, the Water_Quality_Index is
present exactly when pH, dissolved oxygen, nitrate, turbidity and water
temperature are all present after missing-value injection; in particular a
missing conductivity alone never hides the index. -/
theorem C3_wqi_present_iff_five_inputs_present :
    ∀ (time : ℕ) (factory industry : String) (is_polluted : ℕ) (season : Season)
      (d : NpDraws) (m : MissDraws),
      ((create_record time factory industry is_polluted season d m).all (fun r =>
        r.Water_Quality_Index.isSome ==
          (r.pH.isSome && r.Dissolved_Oxygen.isSome && r.Nitrate.isSome &&
            r.Turbidity.isSome && r.Water_Temperature.isSome)) = true) ∧
      ((create_record 0 "F" "chemical" 0 Season.spring ⟨0, 0, 0, 0, 0, 0, 0, 0, 0, 0, 0⟩
          ⟨0.5, 0.5, 0.5, 0.5, 0.5, 0.01⟩).all (fun r =>
        r.Conductivity.isNone && r.Water_Quality_Index.isSome) = true) := by
  intro time factory industry is_polluted season d m
  constructor
  · simp only [create_record, base_values, pollution_effect]
    split_ifs <;>
      simp [finishRecord, Option.all, wqi_of_isSome]
  · decide

/-- Rounding to two decimals is monotone. -/
theorem round2_mono {x y : ℚ} (h : x ≤ y) : round2 x ≤ round2 y := by
  unfold round2
  rw [Rat.mkRat_eq_div, Rat.mkRat_eq_div]
  have hr : round (x * 100) ≤ round (y * 100) := by
    rw [round_eq, round_eq]
    exact Int.floor_mono (by linarith)
  gcongr

theorem clip_le_hi (x lo hi : ℚ) : clip x lo hi ≤ hi := min_le_right _ _

theorem lo_le_clip {lo hi : ℚ} (x : ℚ) (h : lo ≤ hi) : lo ≤ clip x lo hi :=
  le_min (le_max_right x lo) h

/-- A stored field of create_record: whatever survives missing-value
injection of a clamped value, once rounded, stays inside the clamp range
(whenever the two bounds are themselves exactly two-decimal values). -/
theorem inject_round2_mem {md v lo hi x : ℚ} (h : lo ≤ hi)
    (hlo : round2 lo = lo) (hhi : round2 hi = hi)
    (hx : (inject md (clip v lo hi)).map round2 = some x) :
    lo ≤ x ∧ x ≤ hi := by
  unfold inject at hx
  split_ifs at hx
  · exact absurd hx (by simp)
  · obtain rfl : round2 (clip v lo hi) = x := by simpa using hx
    constructor
    · calc lo = round2 lo := hlo.symm
        _ ≤ round2 (clip v lo hi) := round2_mono (lo_le_clip v h)
    · calc round2 (clip v lo hi) ≤ round2 hi := round2_mono (clip_le_hi v lo hi)
        _ = hi := hhi

/-- C4: every non-missing stored reading of a returned record lies in its
declared storage clamp range: pH in [3,10], Nitrate in [0,100], Turbidity in
[0,150], Dissolved_Oxygen in [0,14], Conductivity in [50,2000],
Water_Temperature in [5,40]; out-of-range arithmetic is clamped, never an
error. -/
theorem C4_readings_within_clamp_ranges :
    ∀ (time : ℕ) (factory industry : String) (is_polluted : ℕ) (season : Season)
      (d : NpDraws) (m : MissDraws),
      (∀ x : ℚ, ((create_record time factory industry is_polluted season d m).bind
          (fun r => r.pH)) = some x → 3 ≤ x ∧ x ≤ 10) ∧
      (∀ x : ℚ, ((create_record time factory industry is_polluted season d m).bind
          (fun r => r.Nitrate)) = some x → 0 ≤ x ∧ x ≤ 100) ∧
      (∀ x : ℚ, ((create_record time factory industry is_polluted season d m).bind
          (fun r => r.Turbidity)) = some x → 0 ≤ x ∧ x ≤ 150) ∧
      (∀ x : ℚ, ((create_record time factory industry is_polluted season d m).bind
          (fun r => r.Dissolved_Oxygen)) = some x → 0 ≤ x ∧ x ≤ 14) ∧
      (∀ x : ℚ, ((create_record time factory industry is_polluted season d m).bind
          (fun r => r.Conductivity)) = some x → 50 ≤ x ∧ x ≤ 2000) ∧
      (∀ x : ℚ, ((create_record time factory industry is_polluted season d m).bind
          (fun r => r.Water_Temperature)) = some x → 5 ≤ x ∧ x ≤ 40) := by
  intro time factory industry is_polluted season d m
  simp only [create_record, base_values, pollution_effect]
  split_ifs <;>
    simp only [Option.some_bind, Option.none_bind, Option.map_some', Option.map_none',
      finishRecord] <;>
    refine ⟨?_, ?_, ?_, ?_, ?_, ?_⟩ <;>
    intro x hx <;>
    first
      | exact inject_round2_mem (by norm_num) (by decide) (by decide) hx
      | simp at hx

/-- C6: under a valid industry and no missing-value hit, a polluted record's
stored readings are the baseline-plus-noise values with an additive uniform
industry pH offset, multiplicative uniform industry factors on nitrate,
turbidity and conductivity, and an additive uniform industry DO offset; an
unpolluted record instead gets the fixed background drifts pH plus or minus
0.1, nitrate +0.1..1, turbidity +0.1..2, DO plus or minus 0.1, conductivity
+1..5, and with uniform raw draws in [0,1] the nitrate, turbidity and
conductivity drifts are strictly positive, so the drift is never exactly
zero. -/
theorem C6_effect_branches :
    ∀ (time : ℕ) (factory industry : String) (season : Season) (vals : Profile)
      (eff : Effect) (d : NpDraws) (m : MissDraws),
      base_values industry = some vals → pollution_effect industry = some eff →
      (0.07 ≤ m.m1 ∧ 0.07 ≤ m.m2 ∧ 0.07 ≤ m.m3 ∧ 0.07 ≤ m.m4 ∧
        0.07 ≤ m.m5 ∧ 0.07 ≤ m.m6) →
      (((create_record time factory industry 1 season d m).map fun r =>
          (r.pH, r.Nitrate, r.Turbidity, r.Dissolved_Oxygen, r.Conductivity)) =
        some
          (some (round2 (clip (vals.pH + normal 0.2 d.z1 +
              uniform eff.pH.1 eff.pH.2 d.u1) 3 10)),
           some (round2 (clip ((vals.nitrate + normal 1.5 d.z2) *
              uniform eff.nitrate.1 eff.nitrate.2 d.u2) 0 100)),
           some (round2 (clip ((vals.turbidity + normal 3 d.z3) *
              uniform eff.turbidity.1 eff.turbidity.2 d.u3) 0 150)),
           some (round2 (clip (vals.dO + doSeasonBias season + normal 0.5 d.z5 +
              uniform eff.dO.1 eff.dO.2 d.u4) 0 14)),
           some (round2 (clip ((vals.conductivity + normal 50 d.z6) *
              uniform eff.conductivity.1 eff.conductivity.2 d.u5) 50 2000)))) ∧
      (((create_record time factory industry 0 season d m).map fun r =>
          (r.pH, r.Nitrate, r.Turbidity, r.Dissolved_Oxygen, r.Conductivity)) =
        some
          (some (round2 (clip (vals.pH + normal 0.2 d.z1 +
              uniform (-0.1) 0.1 d.u1) 3 10)),
           some (round2 (clip (vals.nitrate + normal 1.5 d.z2 +
              uniform 0.1 1 d.u2) 0 100)),
           some (round2 (clip (vals.turbidity + normal 3 d.z3 +
              uniform 0.1 2 d.u3) 0 150)),
           some (round2 (clip (vals.dO + doSeasonBias season + normal 0.5 d.z5 +
              uniform (-0.1) 0.1 d.u4) 0 14)),
           some (round2 (clip (vals.conductivity + normal 50 d.z6 +
              uniform 1 5 d.u5) 50 2000)))) ∧
      (∀ u : ℚ, 0 ≤ u → u ≤ 1 →
        (-0.1 ≤ uniform (-0.1) 0.1 u ∧ uniform (-0.1) 0.1 u ≤ 0.1) ∧
        (0.1 ≤ uniform 0.1 1 u ∧ uniform 0.1 1 u ≤ 1 ∧ 0 < uniform 0.1 1 u) ∧
        (0.1 ≤ uniform 0.1 2 u ∧ uniform 0.1 2 u ≤ 2 ∧ 0 < uniform 0.1 2 u) ∧
        (1 ≤ uniform 1 5 u ∧ uniform 1 5 u ≤ 5 ∧ 0 < uniform 1 5 u)) := by
  intro time factory industry season vals eff d m hb he hm
  obtain ⟨hm1, hm2, hm3, hm4, hm5, hm6⟩ := hm
  refine ⟨?_, ?_, ?_⟩
  · simp only [create_record, hb, Option.some_bind]
    rw [if_pos (by norm_num : (1:ℕ) ≠ 0)]
    simp only [he, Option.map_some', finishRecord, inject]
    rw [if_neg (not_lt.2 hm1), if_neg (not_lt.2 hm2), if_neg (not_lt.2 hm4),
      if_neg (not_lt.2 hm5), if_neg (not_lt.2 hm6)]
    simp only [Option.map_some']
  · simp only [create_record, hb, Option.some_bind]
    rw [if_neg (by norm_num : ¬((0:ℕ) ≠ 0))]
    simp only [Option.map_some', finishRecord, inject]
    rw [if_neg (not_lt.2 hm1), if_neg (not_lt.2 hm2), if_neg (not_lt.2 hm4),
      if_neg (not_lt.2 hm5), if_neg (not_lt.2 hm6)]
    simp only [Option.map_some']
  · intro u h0 h1
    refine ⟨⟨?_, ?_⟩, ⟨?_, ?_, ?_⟩, ⟨?_, ?_, ?_⟩, ⟨?_, ?_, ?_⟩⟩ <;>
      simp only [uniform] <;> linarith

/-- Witness for C4: a concrete chemical, unpolluted, spring record with zero
noise, zero uniform draws and no missing values has every stored reading
inside its clamp range. -/
theorem C4_witness :
    ((3:ℚ) ≤ 5.4 ∧ (5.4:ℚ) ≤ 10) ∧ ((0:ℚ) ≤ 15.1 ∧ (15.1:ℚ) ≤ 100) ∧
    ((0:ℚ) ≤ 10.1 ∧ (10.1:ℚ) ≤ 150) ∧ ((0:ℚ) ≤ 7.4 ∧ (7.4:ℚ) ≤ 14) ∧
    ((50:ℚ) ≤ 301 ∧ (301:ℚ) ≤ 2000) ∧ ((5:ℚ) ≤ 22 ∧ (22:ℚ) ≤ 40) := by
  obtain ⟨h1, h2, h3, h4, h5, h6⟩ :=
    C4_readings_within_clamp_ranges 0 "F" "chemical" 0 Season.spring
      ⟨0, 0, 0, 0, 0, 0, 0, 0, 0, 0, 0⟩ ⟨0.5, 0.5, 0.5, 0.5, 0.5, 0.5⟩
  exact ⟨h1 5.4 (by decide), h2 15.1 (by decide), h3 10.1 (by decide),
    h4 7.4 (by decide), h5 301 (by decide), h6 22 (by decide)⟩

/-- Witness for C6: the polluted branch equalities and the strict positivity
of the nitrate drift, at a concrete chemical record and the draw 0.5. -/
theorem C6_witness :
    (((create_record 0 "F" "chemical" 1 Season.spring ⟨0, 0, 0, 0, 0, 0, 0, 0, 0, 0, 0⟩
        ⟨0.5, 0.5, 0.5, 0.5, 0.5, 0.5⟩).map fun r =>
      (r.pH, r.Nitrate, r.Turbidity, r.Dissolved_Oxygen, r.Conductivity)) =
      some
        (some (round2 (clip (chemicalBase.pH + normal 0.2 0 +
            uniform chemicalEffect.pH.1 chemicalEffect.pH.2 0) 3 10)),
         some (round2 (clip ((chemicalBase.nitrate + normal 1.5 0) *
            uniform chemicalEffect.nitrate.1 chemicalEffect.nitrate.2 0) 0 100)),
         some (round2 (clip ((chemicalBase.turbidity + normal 3 0) *
            uniform chemicalEffect.turbidity.1 chemicalEffect.turbidity.2 0) 0 150)),
         some (round2 (clip (chemicalBase.dO + doSeasonBias Season.spring + normal 0.5 0 +
            uniform chemicalEffect.dO.1 chemicalEffect.dO.2 0) 0 14)),
         some (round2 (clip ((chemicalBase.conductivity + normal 50 0) *
            uniform chemicalEffect.conductivity.1 chemicalEffect.conductivity.2 0) 50 2000)))) ∧
    (0:ℚ) < uniform 0.1 1 0.5 := by
  have h := C6_effect_branches 0 "F" "chemical" Season.spring chemicalBase chemicalEffect
    ⟨0, 0, 0, 0, 0, 0, 0, 0, 0, 0, 0⟩ ⟨0.5, 0.5, 0.5, 0.5, 0.5, 0.5⟩ (by decide) (by decide)
    (by decide)
  exact ⟨h.1, (h.2.2 0.5 (by decide) (by decide)).2.1.2.2⟩

/-- Calendar month (1..12) of a day count given in days since 1970-01-01,
proleptic Gregorian (the standard civil-from-days computation, matching
pandas timestamp arithmetic). -/
def monthOfDay (z : ℕ) : ℕ :=
  let doe := (z + 719468) % 146097
  let yoe := (doe - doe / 1460 + doe / 36524 - doe / 146096) / 365
  let doy := doe - (365 * yoe + yoe / 4 - yoe / 100)
  let mp := (5 * doy + 2) / 153
  if mp < 10 then mp + 3 else mp - 9

/-- Calendar month of a timestamp counted in hours since 1970-01-01. -/
def monthOfHour (h : ℕ) : ℕ := monthOfDay (h / 24)

/-- pd.to_datetime("2023-01-01 00:00:00") in hours since 1970-01-01:
19358 days times 24. -/
def startHour : ℕ := 464592

/-- Lines 103-111: the season from the calendar month. -/
def seasonOf (month : ℕ) : Season :=
  if 3 ≤ month ∧ month ≤ 5 then .spring
  else if 6 ≤ month ∧ month ≤ 8 then .summer
  else if 9 ≤ month ∧ month ≤ 11 then .autumn
  else .winter

/-- The season used for loop iteration i. -/
def tickSeason (i : ℕ) : Season := seasonOf (monthOfHour (startHour + i))

/-- random.choice from a list of strings, given one raw uniform draw. -/
def pychoice (l : List String) (u : ℚ) : String :=
  l.getD ((⌊u * l.length⌋).toNat % l.length) ""

/-- The industry pool `list(base_values.keys())` (line 98), in dict
insertion order. -/
def industries : List String := ["chemical", "textile", "food_processing"]

/-- The factory pool: five Faker uuid4 strings generated once at startup
(line 97), modelled as the first five outputs of the Faker source. -/
def factoriesOf (fk : ℕ → String) : List String := [fk 0, fk 1, fk 2, fk 3, fk 4]

/-- The raw draws one loop iteration takes from the random module, in
program order: factory choice, industry choice, pollution Bernoulli draw
(lines 113-117), then the six missing-value draws inside create_record. -/
structure PyTickDraws where
  cF : ℚ
  cI : ℚ
  pP : ℚ
  m1 : ℚ
  m2 : ℚ
  m3 : ℚ
  m4 : ℚ
  m5 : ℚ
  m6 : ℚ
deriving DecidableEq, Repr

/-- Iteration i consumes random-module draws 9i..9i+8. -/
def pyDrawsAt (py : ℕ → ℚ) (i : ℕ) : PyTickDraws :=
  ⟨py (9 * i), py (9 * i + 1), py (9 * i + 2), py (9 * i + 3), py (9 * i + 4),
   py (9 * i + 5), py (9 * i + 6), py (9 * i + 7), py (9 * i + 8)⟩

/-- Iteration i consumes NumPy draws 11i..11i+10. -/
def npDrawsAt (np : ℕ → ℚ) (i : ℕ) : NpDraws :=
  ⟨np (11 * i), np (11 * i + 1), np (11 * i + 2), np (11 * i + 3), np (11 * i + 4),
   np (11 * i + 5), np (11 * i + 6), np (11 * i + 7), np (11 * i + 8),
   np (11 * i + 9), np (11 * i + 10)⟩

/-- One iteration of the generation loop (lines 100-120), with its raw
draws passed explicitly. -/
def tickAux (p : PyTickDraws) (d : NpDraws) (facs : List String) (i : ℕ) : Option Record :=
  let time := startHour + i
  let season := tickSeason i
  let factory := pychoice facs p.cF
  let industry := pychoice industries p.cI
  let prob : ℚ := if industry = "chemical" then 0.20 else 0.15
  let polluted : ℕ := if p.pP < prob then 1 else 0
  create_record time factory industry polluted season d ⟨p.m1, p.m2, p.m3, p.m4, p.m5, p.m6⟩

/-- One iteration of the generation loop, drawing from the global sources. -/
def tick (py np : ℕ → ℚ) (fk : ℕ → String) (i : ℕ) : Option Record :=
  tickAux (pyDrawsAt py i) (npDrawsAt np i) (factoriesOf fk) i

/-- The generation loop (lines 100-120): rows for iterations 0..count-1,
appended in order; a KeyError anywhere aborts the run. -/
def genRows (py np : ℕ → ℚ) (fk : ℕ → String) : ℕ → Option (List Record)
  | 0 => some []
  | k + 1 => (genRows py np fk k).bind fun rows =>
      (tick py np fk k).map fun r => rows ++ [r]

/-- df.set_index("Timestamp").sort_index() (line 123): sort rows by
ascending timestamp. -/
def sortRecords (l : List Record) : List Record :=
  List.insertionSort (fun a b => a.Timestamp ≤ b.Timestamp) l

/-- generate_dataset (synthetic_data.py lines 93-124), over the three
modelled randomness sources. -/
def generate_dataset (n : ℕ) (py np : ℕ → ℚ) (fk : ℕ → String) : Option (List Record) :=
  (genRows py np fk n).map sortRecords

/-- random.choice over the industry key list always yields one of the three
keys. -/
theorem pychoice_industries_mem (u : ℚ) :
    pychoice industries u = "chemical" ∨ pychoice industries u = "textile" ∨
      pychoice industries u = "food_processing" := by
  unfold pychoice industries
  have h3 : (⌊u * (("chemical" :: "textile" :: "food_processing" :: []).length : ℕ)⌋).toNat %
      ("chemical" :: "textile" :: "food_processing" :: []).length < 3 :=
    Nat.mod_lt _ (by norm_num)
  rcases (by omega :
      (⌊u * (("chemical" :: "textile" :: "food_processing" :: []).length : ℕ)⌋).toNat %
        ("chemical" :: "textile" :: "food_processing" :: []).length = 0 ∨
      (⌊u * (("chemical" :: "textile" :: "food_processing" :: []).length : ℕ)⌋).toNat %
        ("chemical" :: "textile" :: "food_processing" :: []).length = 1 ∨
      (⌊u * (("chemical" :: "textile" :: "food_processing" :: []).length : ℕ)⌋).toNat %
        ("chemical" :: "textile" :: "food_processing" :: []).length = 2) with h | h | h <;>
    rw [h] <;> simp

/-- For one of the three valid industry keys, create_record always returns a
record carrying the requested timestamp and pollution flag. -/
theorem create_record_valid (time : ℕ) (factory industry : String) (pol : ℕ)
    (season : Season) (d : NpDraws) (m : MissDraws)
    (h : industry = "chemical" ∨ industry = "textile" ∨ industry = "food_processing") :
    ∃ r, create_record time factory industry pol season d m = some r ∧
      r.Timestamp = time ∧ r.Pollution_Flag = pol := by
  rcases h with h | h | h <;> subst h <;>
    simp only [create_record, base_values, pollution_effect, reduceIte,
      Option.some_bind] <;>
    split_ifs <;>
    exact ⟨_, rfl, rfl, rfl⟩

/-- Every loop iteration produces a record stamped with its own hour. -/
theorem tick_eq_some (py np : ℕ → ℚ) (fk : ℕ → String) (i : ℕ) :
    ∃ r, tick py np fk i = some r ∧ r.Timestamp = startHour + i := by
  obtain ⟨r, hr, ht, _⟩ := create_record_valid (startHour + i)
    (pychoice (factoriesOf fk) (pyDrawsAt py i).cF)
    (pychoice industries (pyDrawsAt py i).cI)
    (if (pyDrawsAt py i).pP <
        (if pychoice industries (pyDrawsAt py i).cI = "chemical" then 0.20 else 0.15)
      then 1 else 0)
    (tickSeason i) (npDrawsAt np i)
    ⟨(pyDrawsAt py i).m1, (pyDrawsAt py i).m2, (pyDrawsAt py i).m3,
     (pyDrawsAt py i).m4, (pyDrawsAt py i).m5, (pyDrawsAt py i).m6⟩
    (pychoice_industries_mem (pyDrawsAt py i).cI)
  exact ⟨r, hr, ht⟩

/-- The loop builds one row per iteration, stamped in order. -/
theorem genRows_spec (py np : ℕ → ℚ) (fk : ℕ → String) :
    ∀ k : ℕ, ∃ l, genRows py np fk k = some l ∧
      l.map (fun r => r.Timestamp) = (List.range k).map (fun i => startHour + i)
  | 0 => ⟨[], rfl, rfl⟩
  | k + 1 => by
    obtain ⟨l, hl, hm⟩ := genRows_spec py np fk k
    obtain ⟨r, hr, ht⟩ := tick_eq_some py np fk k
    refine ⟨l ++ [r], ?_, ?_⟩
    · simp [genRows, hl, hr]
    · simp [List.range_succ, hm, ht]

/-- Rows whose timestamps follow the hour progression are already sorted by
timestamp. -/
theorem rows_pairwise_le {l : List Record} {n : ℕ}
    (hm : l.map (fun r => r.Timestamp) = (List.range n).map (fun i => startHour + i)) :
    l.Pairwise fun a b => a.Timestamp ≤ b.Timestamp := by
  have h2 : (l.map fun r => r.Timestamp).Pairwise (· ≤ ·) := by
    rw [hm, List.pairwise_map]
    exact (List.pairwise_lt_range n).imp (by omega)
  rw [List.pairwise_map] at h2
  exact h2

/-- Sorting already-sorted rows is the identity. -/
theorem sortRecords_eq_self {l : List Record}
    (h : l.Pairwise fun a b => a.Timestamp ≤ b.Timestamp) : sortRecords l = l :=
  List.Sorted.insertionSort_eq h

/-- generate_dataset always succeeds and its rows carry the hour
progression. -/
theorem generate_dataset_spec (n : ℕ) (py np : ℕ → ℚ) (fk : ℕ → String) :
    ∃ l, generate_dataset n py np fk = some l ∧
      l.map (fun r => r.Timestamp) = (List.range n).map (fun i => startHour + i) := by
  obtain ⟨l, hl, hm⟩ := genRows_spec py np fk n
  refine ⟨l, ?_, hm⟩
  simp [generate_dataset, hl, sortRecords_eq_self (rows_pairwise_le hm)]

/-- C5: for every n, the dataset holds exactly n rows, their timestamps
start at the fixed start time 2023-01-01 00:00 and advance by exactly one
hour per row, and the output is strictly increasing in timestamp. -/
theorem C5_dataset_size_and_timestamps :
    ∀ (n : ℕ) (py np : ℕ → ℚ) (fk : ℕ → String) (l : List Record),
      generate_dataset n py np fk = some l →
      l.length = n ∧
      l.map (fun r => r.Timestamp) = (List.range n).map (fun i => startHour + i) ∧
      List.Sorted (· < ·) (l.map fun r => r.Timestamp) := by
  intro n py np fk l hl
  obtain ⟨l2, hl2, hm⟩ := generate_dataset_spec n py np fk
  rw [hl] at hl2
  cases hl2
  refine ⟨?_, hm, ?_⟩
  · have h := congrArg List.length hm
    simpa using h
  · rw [hm]
    exact List.pairwise_map.2 ((List.pairwise_lt_range n).imp (by omega))

/-- The single row produced by a one-row run on constant draws 0.5 (random
module) and 0 (NumPy), with factory pool "F". -/
def c5rec : Record :=
  ⟨464592, "F", "textile", some 7.4, some 20.1, some 6.9, some 23, some 501,
   some 10.1, some 65.34, 0⟩

/-- Witness for C5: the one-row dataset at concrete draws has length 1, the
start timestamp, and a sorted timestamp column. -/
theorem C5_witness :
    [c5rec].length = 1 ∧
    [c5rec].map (fun r => r.Timestamp) = (List.range 1).map (fun i => startHour + i) ∧
    List.Sorted (· < ·) ([c5rec].map fun r => r.Timestamp) :=
  C5_dataset_size_and_timestamps 1 (fun _ => 0.5) (fun _ => 0) (fun _ => "F") [c5rec]
    (by decide)

/-- C7: the season of each generated tick is a function of the timestamp's
calendar month alone, mapping months 3-5 to spring, 6-8 to summer, 9-11 to
autumn and the rest to winter; concretely the ticks falling on 2023-04-01,
2023-07-01, 2023-10-01 and 2023-01-01 get spring, summer, autumn, winter. -/
theorem C7_season_is_function_of_month :
    (∀ i j : ℕ, monthOfHour (startHour + i) = monthOfHour (startHour + j) →
        tickSeason i = tickSeason j) ∧
    (∀ m, 3 ≤ m → m ≤ 5 → seasonOf m = Season.spring) ∧
    (∀ m, 6 ≤ m → m ≤ 8 → seasonOf m = Season.summer) ∧
    (∀ m, 9 ≤ m → m ≤ 11 → seasonOf m = Season.autumn) ∧
    (∀ m, m = 12 ∨ m = 1 ∨ m = 2 → seasonOf m = Season.winter) ∧
    seasonOf 4 = Season.spring ∧ seasonOf 7 = Season.summer ∧
    seasonOf 10 = Season.autumn ∧ seasonOf 1 = Season.winter ∧
    tickSeason 2160 = Season.spring ∧ tickSeason 4344 = Season.summer ∧
    tickSeason 6552 = Season.autumn ∧ tickSeason 0 = Season.winter := by
  refine ⟨fun i j h => by unfold tickSeason; rw [h], ?_, ?_, ?_, ?_,
    by decide, by decide, by decide, by decide, by decide, by decide, by decide, by decide⟩
  · intro m h1 h2
    unfold seasonOf
    rw [if_pos ⟨h1, h2⟩]
  · intro m h1 h2
    unfold seasonOf
    rw [if_neg (by omega), if_pos ⟨h1, h2⟩]
  · intro m h1 h2
    unfold seasonOf
    rw [if_neg (by omega), if_neg (by omega), if_pos ⟨h1, h2⟩]
  · rintro m (rfl | rfl | rfl) <;> decide

/-- Witness for C7: the month-range clauses applied at concrete months. -/
theorem C7_witness :
    seasonOf 4 = Season.spring ∧ seasonOf 7 = Season.summer ∧
    seasonOf 10 = Season.autumn ∧ seasonOf 12 = Season.winter ∧
    tickSeason 0 = tickSeason 0 := by
  have h := C7_season_is_function_of_month
  exact ⟨h.2.1 4 (by norm_num) (by norm_num), h.2.2.1 7 (by norm_num) (by norm_num),
    h.2.2.2.1 10 (by norm_num) (by norm_num), h.2.2.2.2.1 12 (Or.inl rfl),
    h.1 0 0 rfl⟩

/-- C9: looking up an industry outside the three fixed keys fails, and that
failure is unreachable under generate_dataset, whose industries come only
from the key list: every iteration's create_record call succeeds and so does
every dataset run. -/
theorem C9_unknown_industry_fails_generation_succeeds :
    (∀ industry : String, industry ∉ industries →
      ∀ (time : ℕ) (factory : String) (pol : ℕ) (season : Season)
        (d : NpDraws) (m : MissDraws),
        create_record time factory industry pol season d m = none) ∧
    (∀ (py np : ℕ → ℚ) (fk : ℕ → String) (i : ℕ), (tick py np fk i).isSome = true) ∧
    (∀ (n : ℕ) (py np : ℕ → ℚ) (fk : ℕ → String),
      (generate_dataset n py np fk).isSome = true) := by
  refine ⟨?_, ?_, ?_⟩
  · intro industry hmem time factory pol season d m
    simp only [industries, List.mem_cons, List.not_mem_nil, or_false] at hmem
    push_neg at hmem
    obtain ⟨h1, h2, h3⟩ := hmem
    simp only [create_record, base_values]
    rw [if_neg h1, if_neg h2, if_neg h3]
    rfl
  · intro py np fk i
    obtain ⟨r, hr, _⟩ := tick_eq_some py np fk i
    simp [hr]
  · intro n py np fk
    obtain ⟨l, hl, _⟩ := generate_dataset_spec n py np fk
    simp [hl]

/-- Witness for C9: the key "mining" makes create_record fail, while a
concrete one-row generation run succeeds. -/
theorem C9_witness :
    create_record 0 "F" "mining" 0 Season.spring ⟨0, 0, 0, 0, 0, 0, 0, 0, 0, 0, 0⟩
      ⟨0.5, 0.5, 0.5, 0.5, 0.5, 0.5⟩ = none ∧
    (generate_dataset 1 (fun _ => 0.5) (fun _ => 0) (fun _ => "F")).isSome = true := by
  have h := C9_unknown_industry_fails_generation_succeeds
  exact ⟨h.1 "mining" (by decide) 0 "F" 0 Season.spring ⟨0, 0, 0, 0, 0, 0, 0, 0, 0, 0, 0⟩
      ⟨0.5, 0.5, 0.5, 0.5, 0.5, 0.5⟩,
    h.2.2 1 (fun _ => 0.5) (fun _ => 0) (fun _ => "F")⟩

/-- The risk bucketing of app.py lines 180-204, as a pure function of the
returned probability (in percent). -/
def category (probability : ℚ) : String :=
  if probability ≤ 20 then "Very Low Risk"
  else if probability ≤ 40 then "Low Risk"
  else if probability ≤ 60 then "Moderate Risk"
  else if probability ≤ 80 then "High Risk"
  else "Very High Risk"

/-- C8: the bucketing uses inclusive upper bounds 20/40/60/80: p below or at
20 is Very Low, 20 to 40 Low, 40 to 60 Moderate, 60 to 80 High, above 80
Very High. -/
theorem C8_risk_buckets :
    ∀ p : ℚ,
      (p ≤ 20 → category p = "Very Low Risk") ∧
      (20 < p → p ≤ 40 → category p = "Low Risk") ∧
      (40 < p → p ≤ 60 → category p = "Moderate Risk") ∧
      (60 < p → p ≤ 80 → category p = "High Risk") ∧
      (80 < p → category p = "Very High Risk") := by
  intro p
  refine ⟨?_, ?_, ?_, ?_, ?_⟩ <;> intros <;> unfold category <;>
    split_ifs <;> first | rfl | linarith

/-- Witness for C8: one probability in each bucket. -/
theorem C8_witness :
    category 10 = "Very Low Risk" ∧ category 30 = "Low Risk" ∧
    category 50 = "Moderate Risk" ∧ category 70 = "High Risk" ∧
    category 90 = "Very High Risk" :=
  ⟨(C8_risk_buckets 10).1 (by norm_num),
    (C8_risk_buckets 30).2.1 (by norm_num) (by norm_num),
    (C8_risk_buckets 50).2.2.1 (by norm_num) (by norm_num),
    (C8_risk_buckets 70).2.2.2.1 (by norm_num) (by norm_num),
    (C8_risk_buckets 90).2.2.2.2 (by norm_num)⟩

/-- C2 counterexample: the generator's output is not a function of any one
random source.  Holding the random-module draws fixed and changing only the
NumPy draws changes the output, and holding the NumPy draws fixed and
changing only the random-module draws also changes the output; moreover
generate_dataset exposes no seed parameter at all, so the claim that all
draws come from one seedable generator fails on this code. -/
theorem C2_counterexample :
    generate_dataset 1 (fun _ => 0.5) (fun _ => 0) (fun i => toString i) ≠
      generate_dataset 1 (fun _ => 0.5) (fun _ => 1) (fun i => toString i) ∧
    generate_dataset 1 (fun _ => 0.5) (fun _ => 0) (fun i => toString i) ≠
      generate_dataset 1 (fun _ => 0.9) (fun _ => 0) (fun i => toString i) := by
  constructor <;> decide

/-- C2 amended: generation is deterministic in the states of the three
global random sources together; a run of size n reads only the first 9n
random-module draws, the first 11n NumPy draws and the five factory IDs, so
two runs agreeing there produce identical datasets. -/
theorem C2_amended_deterministic_in_sources :
    ∀ (n : ℕ) (py1 py2 np1 np2 : ℕ → ℚ) (fk1 fk2 : ℕ → String),
      (∀ k, k < 9 * n → py1 k = py2 k) → (∀ k, k < 11 * n → np1 k = np2 k) →
      (∀ k, k < 5 → fk1 k = fk2 k) →
      generate_dataset n py1 np1 fk1 = generate_dataset n py2 np2 fk2 := by
  intro n py1 py2 np1 np2 fk1 fk2 hpy hnp hfk
  have hfacs : factoriesOf fk1 = factoriesOf fk2 := by
    unfold factoriesOf
    rw [hfk 0 (by norm_num), hfk 1 (by norm_num), hfk 2 (by norm_num),
      hfk 3 (by norm_num), hfk 4 (by norm_num)]
  have hrows : ∀ k, k ≤ n → genRows py1 np1 fk1 k = genRows py2 np2 fk2 k := by
    intro k
    induction k with
    | zero => intro _; rfl
    | succ k ih =>
      intro hk
      have ih' := ih (by omega)
      have hp : pyDrawsAt py1 k = pyDrawsAt py2 k := by
        unfold pyDrawsAt
        rw [hpy (9 * k) (by omega), hpy (9 * k + 1) (by omega),
          hpy (9 * k + 2) (by omega), hpy (9 * k + 3) (by omega),
          hpy (9 * k + 4) (by omega), hpy (9 * k + 5) (by omega),
          hpy (9 * k + 6) (by omega), hpy (9 * k + 7) (by omega),
          hpy (9 * k + 8) (by omega)]
      have hd : npDrawsAt np1 k = npDrawsAt np2 k := by
        unfold npDrawsAt
        rw [hnp (11 * k) (by omega), hnp (11 * k + 1) (by omega),
          hnp (11 * k + 2) (by omega), hnp (11 * k + 3) (by omega),
          hnp (11 * k + 4) (by omega), hnp (11 * k + 5) (by omega),
          hnp (11 * k + 6) (by omega), hnp (11 * k + 7) (by omega),
          hnp (11 * k + 8) (by omega), hnp (11 * k + 9) (by omega),
          hnp (11 * k + 10) (by omega)]
      have htick : tick py1 np1 fk1 k = tick py2 np2 fk2 k := by
        unfold tick
        rw [hp, hd, hfacs]
      simp only [genRows, ih', htick]
  unfold generate_dataset
  rw [hrows n le_rfl]

/-- Witness for C2 amended: two runs whose sources agree only on the draws
a size-1 run actually reads produce the same dataset. -/
theorem C2_amended_witness :
    generate_dataset 1 (fun _ => 0.5) (fun _ => 0) (fun _ => "F") =
      generate_dataset 1 (fun k => if k < 9 then 0.5 else 0.9)
        (fun k => if k < 11 then 0 else 7) (fun k => if k < 5 then "F" else "X") :=
  C2_amended_deterministic_in_sources 1 _ _ _ _ _ _
    (fun k hk => by
      have h9 : k < 9 := by omega
      rw [if_pos h9])
    (fun k hk => by
      have h11 : k < 11 := by omega
      rw [if_pos h11])
    (fun k hk => by rw [if_pos hk])
